import Mathlib

/-!
Verification of the battery-indicator extension (`extension.js`).

The testable core consists of:
* `calculateColor` — the gauge color as a function of the battery percentage
  (`_calculateColor`);
* the arc geometry of the progress ring (`_onRepaint`, `ARC_START_ANGLE`,
  `DEGREES_PER_PERCENT`);
* `getValidatedThreshold` — threshold clamping (`_getValidatedThreshold`);
* the visibility decision of `_updateIndicator`;
* the charging-glyph failure path (`_loadChargingSvg` / `_drawChargingIcon`).

Numeric values computed by the JavaScript source with floating-point
arithmetic are embedded over `ℚ`; percentages and thresholds are integers in
the source (`Math.round`, `get_int`) and are embedded as `Int`.
Angles are kept in degrees: the source computes
`(270 - (100 - p) * 3.6) * Math.PI / 180` radians, and we model the
degree-valued factor, with `ARC_START_ANGLE = -π/2` rad rendered as `-90`
degrees.
-/

/-- Source constant `MIN_BATTERY_PERCENT = 0`. -/
def MIN_BATTERY_PERCENT : Int := 0

/-- Source constant `MAX_BATTERY_PERCENT = 100`. -/
def MAX_BATTERY_PERCENT : Int := 100

/-- Source constant `LOW_BATTERY_THRESHOLD = 50`. -/
def LOW_BATTERY_THRESHOLD : Int := 50

/-- Source constant `DEGREES_PER_PERCENT = 3.6`. -/
def DEGREES_PER_PERCENT : ℚ := 36 / 10

/-- Source constant `ARC_START_ANGLE = -Math.PI / 2`, expressed in degrees. -/
def ARC_START_ANGLE_DEG : ℚ := -90

/-- Source constant `CHARGING_ICON_SCALE = 1.7`. -/
def CHARGING_ICON_SCALE : ℚ := 17 / 10

/-- Source constant `CHARGING_ICON_SPACING = 1.05`. -/
def CHARGING_ICON_SPACING : ℚ := 21 / 20

/-- Battery status snapshot delivered to the indicator:
`{percentage, isCharging}`. -/
structure BatteryStatus where
  percentage : Int
  isCharging : Bool
deriving DecidableEq, Repr

/-- Embeds `_calculateColor` of `CircleIndicator`: RGB triple `[red, green, blue]`
computed from the status percentage. Out-of-range percentages return the
black sentinel `[0, 0, 0]`. -/
def calculateColor (percentage : Int) : ℚ × ℚ × ℚ :=
  if percentage < MIN_BATTERY_PERCENT ∨ percentage > MAX_BATTERY_PERCENT then
    (0, 0, 0)
  else if percentage ≤ LOW_BATTERY_THRESHOLD then
    (1, (percentage : ℚ) / (LOW_BATTERY_THRESHOLD : ℚ), 0)
  else
    (1 - ((percentage : ℚ) - (LOW_BATTERY_THRESHOLD : ℚ)) /
      (LOW_BATTERY_THRESHOLD : ℚ), 1, 0)

/-- The arc end angle drawn by `_onRepaint`, in degrees:
`arcEndAngle = (270 - (MAX_BATTERY_PERCENT - percentage) * DEGREES_PER_PERCENT)`
(the source multiplies by `π/180` to obtain radians). -/
def arcEndAngleDeg (percentage : Int) : ℚ :=
  270 - ((MAX_BATTERY_PERCENT : ℚ) - (percentage : ℚ)) * DEGREES_PER_PERCENT

/-- The sweep of the filled arc in degrees: end angle minus the fixed start
angle. -/
def arcSweepDeg (percentage : Int) : ℚ :=
  arcEndAngleDeg percentage - ARC_START_ANGLE_DEG

/-- Embeds `_getValidatedThreshold`: clamp the stored integer setting to
`[MIN_BATTERY_PERCENT, MAX_BATTERY_PERCENT]` via
`Math.max(MIN, Math.min(MAX, value))`. -/
def getValidatedThreshold (value : Int) : Int :=
  max MIN_BATTERY_PERCENT (min MAX_BATTERY_PERCENT value)

/-- The threshold comparison of `_updateIndicator`:
`isCharging ? (p < chargingThreshold || p < dischargingThreshold)
            : (p < dischargingThreshold)`. -/
def shouldShow (status : BatteryStatus)
    (chargingThreshold dischargingThreshold : Int) : Bool :=
  if status.isCharging then
    decide (status.percentage < chargingThreshold) ||
      decide (status.percentage < dischargingThreshold)
  else
    decide (status.percentage < dischargingThreshold)

/-- The complete visibility decision of `_updateIndicator`, from the rounded
percentage, the charging flag, and the raw stored threshold settings: the
sentinel check `percentage < MIN_BATTERY_PERCENT` hides and returns first;
otherwise the thresholds are validated and the comparison decides. -/
def updateIndicatorVisible (status : BatteryStatus)
    (storedCharging storedDischarging : Int) : Bool :=
  if status.percentage < MIN_BATTERY_PERCENT then
    false
  else
    shouldShow status (getValidatedThreshold storedCharging)
      (getValidatedThreshold storedDischarging)

/-- A rasterized Cairo image surface: all that the drawing math reads from it
are its pixel dimensions (`getWidth` / `getHeight`). -/
structure Surface where
  width : ℚ
  height : ℚ
deriving DecidableEq, Repr

/-- Text extents as returned by `context.textExtents`. -/
structure TextExtents where
  width : ℚ
  height : ℚ
deriving DecidableEq, Repr

/-- Embeds `_loadChargingSvg`: the body runs under `try`/`catch`; we embed the
outcome of the resource load and rasterization as an `Except` input (the
tinting steps preserve the surface's dimensions). On any failure the `catch`
arm emits exactly one `console.error` diagnostic and returns `null`.
The result is the returned surface (`none` on failure) paired with the
number of diagnostic log entries emitted. -/
def loadChargingSvg (loadResult : Except String Surface) :
    Option Surface × Nat :=
  match loadResult with
  | .error _ => (none, 1)
  | .ok s => (some s, 0)

/-- Embeds `_drawChargingIcon`: returns the new X position for the text, paired with
the diagnostic log count from the load. When the SVG surface is `null` it
returns the default text position `centerX - textExtents.width / 2`;
otherwise it places the icon and returns `iconX + scaledWidth - 5`. -/
def drawChargingIcon (loadResult : Except String Surface) (centerX : ℚ)
    (textExtents : TextExtents) : ℚ × Nat :=
  let load := loadChargingSvg loadResult
  match load.1 with
  | none => (centerX - textExtents.width / 2, load.2)
  | some s =>
    let scale := textExtents.height * CHARGING_ICON_SCALE / s.height
    let scaledWidth := s.width * scale
    let iconX :=
      centerX - CHARGING_ICON_SPACING * (textExtents.width + scaledWidth) / 2
    (iconX + scaledWidth - 5, load.2)

/-- The label X position computed by `_onRepaint`, with the load outcome of
the charging glyph as input: `textX = centerX - textExtents.width / 2`, then
overwritten by `_drawChargingIcon` when `status.isCharging`. Paired with the
number of diagnostic log entries emitted during the repaint. -/
def repaintTextX (isCharging : Bool) (loadResult : Except String Surface)
    (width : ℚ) (textExtents : TextExtents) : ℚ × Nat :=
  let centerX := width / 2
  if isCharging then
    drawChargingIcon loadResult centerX textExtents
  else
    (centerX - textExtents.width / 2, 0)

/-- The validated threshold always lies in `[0,100]`. -/
theorem getValidatedThreshold_mem (v : Int) :
    0 ≤ getValidatedThreshold v ∧ getValidatedThreshold v ≤ 100 := by
  unfold getValidatedThreshold MIN_BATTERY_PERCENT MAX_BATTERY_PERCENT
  exact ⟨le_max_left _ _, max_le (by norm_num) (min_le_left _ _)⟩

/-- Validating a threshold already in `[0,100]` returns it unchanged. -/
theorem getValidatedThreshold_eq_self (v : Int) (h0 : 0 ≤ v)
    (h1 : v ≤ 100) : getValidatedThreshold v = v := by
  unfold getValidatedThreshold MIN_BATTERY_PERCENT MAX_BATTERY_PERCENT
  rw [min_eq_right h1, max_eq_right h0]

/-- Validating a negative threshold returns the lower bound `0`. -/
theorem getValidatedThreshold_of_neg (v : Int) (h : v < 0) :
    getValidatedThreshold v = 0 := by
  unfold getValidatedThreshold MIN_BATTERY_PERCENT MAX_BATTERY_PERCENT
  rw [min_eq_right (by omega), max_eq_left (by omega)]

/-- Validating a threshold above `100` returns the upper bound `100`. -/
theorem getValidatedThreshold_of_gt (v : Int) (h : 100 < v) :
    getValidatedThreshold v = 100 := by
  unfold getValidatedThreshold MIN_BATTERY_PERCENT MAX_BATTERY_PERCENT
  rw [min_eq_left (by omega), max_eq_right (by norm_num)]

/-- The threshold comparison as a proposition. -/
theorem shouldShow_iff (p : Int) (ch : Bool) (c d : Int) :
    shouldShow ⟨p, ch⟩ c d = true ↔
      (if ch then p < c ∨ p < d else p < d) := by
  unfold shouldShow
  cases ch <;> simp

/-- For a non-negative percentage, the decision of `_updateIndicator` is the
threshold comparison on the validated thresholds. -/
theorem updateIndicatorVisible_of_nonneg (p : Int) (ch : Bool) (c d : Int)
    (hp : 0 ≤ p) :
    updateIndicatorVisible ⟨p, ch⟩ c d =
      shouldShow ⟨p, ch⟩ (getValidatedThreshold c)
        (getValidatedThreshold d) := by
  unfold updateIndicatorVisible
  dsimp only
  rw [if_neg (by unfold MIN_BATTERY_PERCENT; omega)]

/-- C1: for every status with percentage ≥ 0 and thresholds in `[0,100]`,
when charging the indicator is shown iff `percentage < chargingThreshold` or
`percentage < dischargingThreshold` (equivalently, iff the percentage is
below the max of the two thresholds); when not charging, iff
`percentage < dischargingThreshold`. -/
theorem c1_visibility_threshold_rule (p c d : Int) (hp : 0 ≤ p)
    (hc0 : 0 ≤ c) (hc1 : c ≤ 100) (hd0 : 0 ≤ d) (hd1 : d ≤ 100) :
    (updateIndicatorVisible ⟨p, true⟩ c d = true ↔ (p < c ∨ p < d)) ∧
    (updateIndicatorVisible ⟨p, true⟩ c d = true ↔ p < max c d) ∧
    (updateIndicatorVisible ⟨p, false⟩ c d = true ↔ p < d) := by
  rw [updateIndicatorVisible_of_nonneg p true c d hp,
    updateIndicatorVisible_of_nonneg p false c d hp,
    getValidatedThreshold_eq_self c hc0 hc1,
    getValidatedThreshold_eq_self d hd0 hd1,
    shouldShow_iff, shouldShow_iff]
  simp only [if_true, if_false, Bool.false_eq_true, ite_true, ite_false]
  exact ⟨trivial, lt_max_iff.symm, trivial⟩

/-- Witness for C1 at `percentage = 85`, thresholds `80` and `90`:
charging shows because 85 < 90, even though 85 ≥ 80. -/
theorem c1_witness :
    updateIndicatorVisible ⟨85, true⟩ 80 90 = true ↔
      ((85 : Int) < 80 ∨ (85 : Int) < 90) :=
  (c1_visibility_threshold_rule 85 80 90 (by omega) (by omega) (by omega)
    (by omega) (by omega)).1

/-- C2: a status with negative percentage hides the indicator for every
charging flag and every pair of stored thresholds, and this sentinel rule
takes precedence: the threshold comparison alone (evaluated on the validated
thresholds) would return `true` for such a percentage, yet the decision is
`false` because the sentinel check runs first. -/
theorem c2_sentinel_precedence (p : Int) (hp : p < 0) (ch : Bool)
    (c d : Int) :
    updateIndicatorVisible ⟨p, ch⟩ c d = false ∧
    shouldShow ⟨p, ch⟩ (getValidatedThreshold c) (getValidatedThreshold d)
      = true := by
  constructor
  · unfold updateIndicatorVisible
    dsimp only
    rw [if_pos (by unfold MIN_BATTERY_PERCENT; omega)]
  · rw [shouldShow_iff]
    have hc := getValidatedThreshold_mem c
    have hd := getValidatedThreshold_mem d
    cases ch <;> simp <;> omega

/-- Witness for C2 at `percentage = -1`, not charging, thresholds `80`/`90`. -/
theorem c2_witness :
    updateIndicatorVisible ⟨-1, false⟩ 80 90 = false :=
  (c2_sentinel_precedence (-1) (by decide) false 80 90).1

/-- C5: every percentage outside `[0,100]` maps to the black sentinel
`(0,0,0)`. -/
theorem c5_out_of_range_black (p : Int) (h : p < 0 ∨ 100 < p) :
    calculateColor p = (0, 0, 0) := by
  simp only [calculateColor, MIN_BATTERY_PERCENT, MAX_BATTERY_PERCENT]
  rw [if_pos (by omega)]

/-- Witness for C5 at the two inputs named by the claim, `-1` and `101`. -/
theorem c5_witness :
    calculateColor (-1) = (0, 0, 0) ∧ calculateColor 101 = (0, 0, 0) :=
  ⟨c5_out_of_range_black (-1) (by omega), c5_out_of_range_black 101 (by omega)⟩

/-- C6: every status whose percentage lies outside `[0,100]` — negative or
above 100 — leaves the indicator hidden, for every stored (pre-clamp)
threshold pair and either charging state. -/
theorem c6_out_of_range_hidden (p : Int) (h : p < 0 ∨ 100 < p) (ch : Bool)
    (c d : Int) :
    updateIndicatorVisible ⟨p, ch⟩ c d = false := by
  rcases h with h | h
  · unfold updateIndicatorVisible
    dsimp only
    rw [if_pos (by unfold MIN_BATTERY_PERCENT; omega)]
  · rw [updateIndicatorVisible_of_nonneg p ch c d (by omega),
      Bool.eq_false_iff, Ne, shouldShow_iff]
    have hc := getValidatedThreshold_mem c
    have hd := getValidatedThreshold_mem d
    cases ch <;> simp <;> omega

/-- Witness for C6 at `percentage = 101`, charging, thresholds `80`/`90`. -/
theorem c6_witness : updateIndicatorVisible ⟨101, true⟩ 80 90 = false :=
  c6_out_of_range_hidden 101 (by omega) true 80 90

/-- C7: the threshold value used by the visibility decision is the stored
value clamped to `[0,100]`: the clamp result always lies in `[0,100]`, equals
the stored value when already in range and the nearer bound otherwise, and
for every non-negative percentage the decision of `_updateIndicator` equals
the threshold comparison evaluated on the clamped values. -/
theorem c7_thresholds_clamped (v : Int) :
    (0 ≤ getValidatedThreshold v ∧ getValidatedThreshold v ≤ 100) ∧
    (0 ≤ v → v ≤ 100 → getValidatedThreshold v = v) ∧
    (v < 0 → getValidatedThreshold v = 0) ∧
    (100 < v → getValidatedThreshold v = 100) ∧
    (∀ (p : Int) (ch : Bool) (w : Int), 0 ≤ p →
      updateIndicatorVisible ⟨p, ch⟩ v w =
        shouldShow ⟨p, ch⟩ (getValidatedThreshold v)
          (getValidatedThreshold w)) := by
  refine ⟨getValidatedThreshold_mem v, ?_, ?_, ?_, ?_⟩
  · exact fun h0 h1 => getValidatedThreshold_eq_self v h0 h1
  · exact fun h => getValidatedThreshold_of_neg v h
  · exact fun h => getValidatedThreshold_of_gt v h
  · exact fun p ch w hp => updateIndicatorVisible_of_nonneg p ch v w hp

/-- Witness for C7: clamping `150` gives `100`, clamping `-7` gives `0`, and
at `percentage = 85` (charging) the decision with stored values `150`/`90`
equals the comparison on the clamped values. -/
theorem c7_witness :
    getValidatedThreshold 150 = 100 ∧ getValidatedThreshold (-7) = 0 ∧
    updateIndicatorVisible ⟨85, true⟩ 150 90 =
      shouldShow ⟨85, true⟩ (getValidatedThreshold 150)
        (getValidatedThreshold 90) :=
  ⟨(c7_thresholds_clamped 150).2.2.2.1 (by omega),
   (c7_thresholds_clamped (-7)).2.2.1 (by omega),
   (c7_thresholds_clamped 150).2.2.2.2 85 true 90 (by omega)⟩

/-- On the valid domain the sentinel branch of `_calculateColor` is skipped
and the color is the two-segment interpolation. -/
theorem calculateColor_eq_of_mem (p : Int) (h0 : 0 ≤ p) (h1 : p ≤ 100) :
    calculateColor p =
      (if p ≤ 50 then ((1 : ℚ), (p : ℚ) / 50, (0 : ℚ))
       else (1 - ((p : ℚ) - 50) / 50, 1, 0)) := by
  unfold calculateColor MIN_BATTERY_PERCENT MAX_BATTERY_PERCENT
    LOW_BATTERY_THRESHOLD
  rw [if_neg (by omega)]
  split_ifs <;> norm_num

/-- C3: on the valid domain `[0,100]` the color is the two-segment linear
interpolation — `(1, p/50, 0)` for `p ≤ 50` and `(1 - (p-50)/50, 1, 0)` for
`p > 50` — with pure red at `0`, pure yellow at `50`, pure green at `100`. -/
theorem c3_color_formula (p : Int) (h0 : 0 ≤ p) (h1 : p ≤ 100) :
    calculateColor p =
      (if p ≤ 50 then ((1 : ℚ), (p : ℚ) / 50, (0 : ℚ))
       else (1 - ((p : ℚ) - 50) / 50, 1, 0)) ∧
    calculateColor 0 = (1, 0, 0) ∧
    calculateColor 50 = (1, 1, 0) ∧
    calculateColor 100 = (0, 1, 0) := by
  refine ⟨calculateColor_eq_of_mem p h0 h1, ?_, ?_, ?_⟩ <;>
    norm_num [calculateColor, MIN_BATTERY_PERCENT, MAX_BATTERY_PERCENT,
      LOW_BATTERY_THRESHOLD]

/-- Witness for C3 at `percentage = 85` (the `p > 50` segment). -/
theorem c3_witness :
    calculateColor 85 =
      (if (85 : Int) ≤ 50 then ((1 : ℚ), ((85 : Int) : ℚ) / 50, (0 : ℚ))
       else (1 - (((85 : Int) : ℚ) - 50) / 50, 1, 0)) :=
  (c3_color_formula 85 (by omega) (by omega)).1

/-- C4: the arc end angle equals the fixed start angle (top of circle,
`-90` degrees) plus `percentage/100 × 360` degrees; the sweep is `0` at
`p = 0`, `360` degrees at `p = 100`, and strictly increasing in the
percentage. -/
theorem c4_arc_sweep (p p1 p2 : Int) (h0 : 0 ≤ p) (h1 : p ≤ 100)
    (g1 : 0 ≤ p1) (g2 : p2 ≤ 100) (g12 : p1 < p2) :
    arcEndAngleDeg p = ARC_START_ANGLE_DEG + (p : ℚ) / 100 * 360 ∧
    arcSweepDeg 0 = 0 ∧ arcSweepDeg 100 = 360 ∧
    arcSweepDeg p1 < arcSweepDeg p2 := by
  refine ⟨?_,
    by norm_num [arcSweepDeg, arcEndAngleDeg, ARC_START_ANGLE_DEG,
      DEGREES_PER_PERCENT, MAX_BATTERY_PERCENT],
    by norm_num [arcSweepDeg, arcEndAngleDeg, ARC_START_ANGLE_DEG,
      DEGREES_PER_PERCENT, MAX_BATTERY_PERCENT],
    ?_⟩
  · unfold arcEndAngleDeg ARC_START_ANGLE_DEG DEGREES_PER_PERCENT
      MAX_BATTERY_PERCENT
    push_cast
    ring
  · unfold arcSweepDeg arcEndAngleDeg ARC_START_ANGLE_DEG
      DEGREES_PER_PERCENT MAX_BATTERY_PERCENT
    have h : (p1 : ℚ) < (p2 : ℚ) := by exact_mod_cast g12
    push_cast
    linarith

/-- Witness for C4 at `p = 25` and the pair `p1 = 10 < p2 = 20`. -/
theorem c4_witness : arcSweepDeg 10 < arcSweepDeg 20 :=
  (c4_arc_sweep 25 10 20 (by omega) (by omega) (by omega) (by omega)
    (by omega)).2.2.2

/-- C8: when the charging glyph resource fails to load, the repaint still
produces a text position (the `catch` arm of `_loadChargingSvg` swallows the
error), exactly one diagnostic log entry is emitted, and the label's X
position equals the one computed for a non-charging status,
`centerX - textExtents.width / 2`. -/
theorem c8_glyph_failure_graceful (e : String) (w : ℚ) (te : TextExtents) :
    repaintTextX true (Except.error e) w te =
      ((repaintTextX false (Except.error e) w te).1, 1) := by
  simp [repaintTextX, drawChargingIcon, loadChargingSvg]

/-- C9: between adjacent integer percentages in `[0,100]`, every color
channel changes by at most `1/50`. -/
theorem c9_adjacent_step_bound (p : ℕ) (h : p < 100) :
    |(calculateColor ((p : Int) + 1)).1 - (calculateColor (p : Int)).1|
        ≤ 1 / 50 ∧
    |(calculateColor ((p : Int) + 1)).2.1 - (calculateColor (p : Int)).2.1|
        ≤ 1 / 50 ∧
    |(calculateColor ((p : Int) + 1)).2.2 - (calculateColor (p : Int)).2.2|
        ≤ 1 / 50 := by
  rw [calculateColor_eq_of_mem ((p : Int) + 1) (by omega) (by omega),
    calculateColor_eq_of_mem (p : Int) (by omega) (by omega)]
  split_ifs with h1 h2 h2
  · dsimp only
    refine ⟨abs_le.mpr ⟨?_, ?_⟩, abs_le.mpr ⟨?_, ?_⟩,
      abs_le.mpr ⟨?_, ?_⟩⟩ <;> push_cast <;> linarith
  · exact absurd (by omega : (p : Int) ≤ 50) h2
  · have hq : ((p : ℕ) : ℚ) = 50 := by
      exact_mod_cast (by omega : (p : Int) = 50)
    dsimp only
    refine ⟨abs_le.mpr ⟨?_, ?_⟩, abs_le.mpr ⟨?_, ?_⟩,
      abs_le.mpr ⟨?_, ?_⟩⟩ <;> push_cast <;> linarith
  · dsimp only
    refine ⟨abs_le.mpr ⟨?_, ?_⟩, abs_le.mpr ⟨?_, ?_⟩,
      abs_le.mpr ⟨?_, ?_⟩⟩ <;> push_cast <;> linarith

/-- Witness for C9 across the segment boundary, at `p = 50`. -/
theorem c9_witness :
    |(calculateColor (((50 : ℕ) : Int) + 1)).1 -
        (calculateColor ((50 : ℕ) : Int)).1| ≤ 1 / 50 :=
  (c9_adjacent_step_bound 50 (by omega)).1

/-- C10: across the valid domain the red channel is antitone, the green
channel is monotone, and the blue channel is identically `0`. -/
theorem c10_color_monotone (p1 p2 : ℕ) (h12 : p1 ≤ p2) (h2 : p2 ≤ 100) :
    (calculateColor (p2 : Int)).1 ≤ (calculateColor (p1 : Int)).1 ∧
    (calculateColor (p1 : Int)).2.1 ≤ (calculateColor (p2 : Int)).2.1 ∧
    (calculateColor (p1 : Int)).2.2 = 0 := by
  have hq12 : ((p1 : ℕ) : ℚ) ≤ ((p2 : ℕ) : ℚ) := by exact_mod_cast h12
  rw [calculateColor_eq_of_mem (p2 : Int) (by omega) (by omega),
    calculateColor_eq_of_mem (p1 : Int) (by omega) (by omega)]
  split_ifs with g2 g1 g1
  · dsimp only
    refine ⟨le_refl _, ?_, rfl⟩
    push_cast
    linarith
  · exact absurd (by omega : (p1 : Int) ≤ 50) g1
  · have hb1 : ((p1 : ℕ) : ℚ) ≤ 50 := by
      exact_mod_cast (by omega : (p1 : Int) ≤ 50)
    have hb2 : (50 : ℚ) ≤ ((p2 : ℕ) : ℚ) := by
      exact_mod_cast (by omega : (50 : Int) ≤ (p2 : Int))
    dsimp only
    refine ⟨?_, ?_, rfl⟩ <;> push_cast <;> linarith
  · dsimp only
    refine ⟨?_, le_refl _, rfl⟩
    push_cast
    linarith

/-- Witness for C10 at `p1 = 30 ≤ p2 = 70`. -/
theorem c10_witness :
    (calculateColor ((70 : ℕ) : Int)).1 ≤ (calculateColor ((30 : ℕ) : Int)).1 :=
  (c10_color_monotone 30 70 (by omega) (by omega)).1
